import Mathlib

/-!
# Granola Bridge — shallow embedding of the maturation engine and retry scheduler

This file embeds the persistent data model and the core operations of the
granola-bridge daemon in Lean and proves properties of the embedded code.

Sources embedded here:
* `src/granola_bridge/models/meeting.py` — the `Meeting` ("Item") record;
* `src/granola_bridge/models/action_item.py` — the `ActionItem` output record;
* `src/granola_bridge/models/retry_queue.py` — the `RetryQueue` ("RetryEntry") record;
* `src/granola_bridge/core/scheduler.py` — `RetryScheduler._process_pending`,
  `RetryScheduler._process_item`, `RetryScheduler._handle_failure`, `add_to_retry_queue`;
* `src/granola_bridge/core/daemon.py` — `Daemon._detect_new_meetings`,
  `Daemon._check_meeting_maturation`, `Daemon._process_meeting`, `Daemon._create_trello_card`;
* `src/granola_bridge/web/routes/retry_queue.py` — `trigger_retry`.

Modelling conventions:
* Timestamps and durations are rationals (`ℚ`), in seconds.  Python's
  `datetime.utcnow()` readings taken during a single phase are modelled by an
  explicit `now` parameter of that phase; `timedelta` arithmetic and the
  float divisions of the source are exact on `ℚ`.
* `compute_transcript_hash` (SHA-256 hex digest, `models/meeting.py`) is an
  uninterpreted parameter `hash : String → String`: the daemon uses it only
  for equality comparisons, so every theorem is proved for an arbitrary hash
  function.
* Database-managed audit columns (`created_at`, `updated_at`) are not part of
  the model: no embedded operation reads them.
* External collaborator calls (LLM extraction, Trello publish, retry handler
  invocations) are modelled by explicit outcome values supplied as parameters,
  covering the success and the exception branches of the source.
* Fresh UUID primary keys and JSON payload serialization are modelled by
  uninterpreted parameters (`freshIds : Nat → String`,
  `encodePayload : String → String → String`).
-/

namespace GranolaBridge

/-- `MeetingStatus` from `models/meeting.py`: lifecycle states of an Item. -/
inductive MeetingStatus
  | pending
  | ready
  | processing
  | processed
  | failed
deriving DecidableEq, Repr

/-- `MeetingSource` from `models/meeting.py`. -/
inductive MeetingSource
  | granola
  | manualUpload
deriving DecidableEq, Repr

/-- `ActionItemStatus` from `models/action_item.py`. -/
inductive ActionItemStatus
  | pending
  | sent
  | failed
  | skipped
deriving DecidableEq, Repr

/-- `OperationType` from `models/retry_queue.py`. -/
inductive OperationType
  | trelloCreateCard
  | llmExtraction
  | notification
deriving DecidableEq, Repr

/-- `RetryStatus` from `models/retry_queue.py`. -/
inductive RetryStatus
  | pending
  | inProgress
  | succeeded
  | failedPermanent
deriving DecidableEq, Repr

/-- The `Meeting` row of `models/meeting.py` (the "Item" of the spec).
    The mapped columns are: `id`, `granola_id` (unique, nullable), `title`,
    `transcript`, `meeting_date`, `source`, `processed_at`, `status`,
    `transcript_hash`, `first_seen_at`, `stable_since`.  Note that the model
    declares NO `error_message` column. -/
structure Meeting where
  id : String
  granolaId : Option String
  title : String
  transcript : String
  meetingDate : Option ℚ
  source : MeetingSource
  processedAt : Option ℚ
  status : MeetingStatus
  transcriptHash : Option String
  firstSeenAt : Option ℚ
  stableSince : Option ℚ
deriving DecidableEq, Repr

/-- The `ActionItem` row of `models/action_item.py` (the "output record"). -/
structure ActionItem where
  id : String
  meetingId : String
  title : String
  description : Option String
  context : Option String
  assignee : Option String
  trelloCardId : Option String
  trelloCardUrl : Option String
  status : ActionItemStatus
  retryCount : Int
  errorMessage : Option String
deriving DecidableEq, Repr

/-- The `RetryQueue` row of `models/retry_queue.py` (the "RetryEntry"). -/
structure RetryQueue where
  id : String
  operationType : OperationType
  payload : String
  attemptCount : Int
  maxAttempts : Int
  nextRetryAt : ℚ
  status : RetryStatus
  errorMessage : Option String
deriving DecidableEq, Repr

/-- A transcript-source record exactly as the parser produces it: the
    `GranolaMeeting` dataclass of `granola_parser.py:13-21`.  It declares
    `granola_id`, `title`, `transcript`, `meeting_date` and `participants`
    and nothing else; in particular it has NO `meeting_end_count` attribute,
    even though `daemon.py:228` reads one (see `checkMaturationStep`). -/
structure GranolaMeeting where
  granolaId : String
  title : String
  transcript : String
  meetingDate : Option ℚ
  participants : List String
deriving DecidableEq, Repr

/-! ## Retry scheduler (`core/scheduler.py`) -/

/-- `add_to_retry_queue` (`scheduler.py:152`): creates a fresh entry with
    `status = PENDING`, `attempt_count = 0`, `next_retry_at = utcnow()`.
    The uuid primary key is the parameter `newId`. -/
def addToRetryQueue (newId : String) (operationType : OperationType) (payload : String)
    (maxAttempts : Int) (now : ℚ) : RetryQueue :=
  { id := newId
    operationType := operationType
    payload := payload
    attemptCount := 0
    maxAttempts := maxAttempts
    nextRetryAt := now
    status := RetryStatus.pending
    errorMessage := none }

/-- The backoff delay of `_handle_failure` (`scheduler.py:137`):
    `base_delay * 2 ** (attempt_count - 1)`.  The exponent is an integer, as
    in Python (for `attempt_count = 0` Python computes `2 ** (-1) = 0.5`,
    which `zpow` on `ℚ` reproduces exactly). -/
def backoffDelay (baseDelay : ℚ) (attemptCount : Int) : ℚ :=
  baseDelay * (2 : ℚ) ^ (attemptCount - 1)

/-- `RetryScheduler._handle_failure` (`scheduler.py:124-142`): records the
    error, then either marks the entry `FAILED_PERMANENT` (when
    `attempt_count >= max_attempts`) or re-queues it as `PENDING` with the
    exponential-backoff `next_retry_at`. -/
def handleFailure (baseDelay now : ℚ) (item : RetryQueue) (error : String) : RetryQueue :=
  let item := { item with errorMessage := some error }
  if item.attemptCount ≥ item.maxAttempts then
    { item with status := RetryStatus.failedPermanent }
  else
    { item with
        status := RetryStatus.pending
        nextRetryAt := now + backoffDelay baseDelay item.attemptCount }

/-- Result of invoking a registered handler (`scheduler.py:113`): the handler
    returns `True`, returns a falsy value, or raises. -/
inductive HandlerOutcome
  | success
  | returnedFalse
  | raised (msg : String)
deriving DecidableEq, Repr

/-- The dispatch mutation of `_process_item` (`scheduler.py:107-109`):
    `status = IN_PROGRESS`, `attempt_count += 1`, committed before the handler
    is invoked. -/
def dispatchBegin (item : RetryQueue) : RetryQueue :=
  { item with
      status := RetryStatus.inProgress
      attemptCount := item.attemptCount + 1 }

/-- `RetryScheduler._process_item` (`scheduler.py:99-122`).  The handler
    registry is modelled by `registered : OperationType → Bool` (whether
    `self.handlers.get(...)` finds a handler) and the handler call by an
    explicit `outcome`.  When no handler is registered the item is returned
    untouched (`scheduler.py:103-105`); otherwise the dispatch mutation is
    applied first and the outcome is then folded in. -/
def processItem (registered : OperationType → Bool) (outcome : HandlerOutcome)
    (baseDelay now : ℚ) (item : RetryQueue) : RetryQueue :=
  if registered item.operationType = false then item
  else
    let item := dispatchBegin item
    match outcome with
    | HandlerOutcome.success => { item with status := RetryStatus.succeeded }
    | HandlerOutcome.returnedFalse => handleFailure baseDelay now item "Handler returned False"
    | HandlerOutcome.raised msg => handleFailure baseDelay now item msg

/-- The due-entry selection of `_process_pending` (`scheduler.py:76-83`):
    `status == PENDING AND next_retry_at <= now`. -/
def isDue (now : ℚ) (item : RetryQueue) : Bool :=
  item.status == RetryStatus.pending && decide (item.nextRetryAt ≤ now)

/-- The parameters of one poll cycle: the registry contents, the behaviour of
    each handler invocation, the configured base delay and the clock. -/
structure PollParams where
  registered : OperationType → Bool
  outcome : RetryQueue → HandlerOutcome
  baseDelay : ℚ
  now : ℚ

/-- Effect of one poll cycle (`_process_pending`, `scheduler.py:67-97`) on a
    single entry: due entries are dispatched through `_process_item`, all
    others are left untouched. -/
def pollStep (p : PollParams) (item : RetryQueue) : RetryQueue :=
  if isDue p.now item then processItem p.registered (p.outcome item) p.baseDelay p.now item
  else item

/-- `RetryScheduler._process_pending` over the whole store: each entry is
    processed independently (`scheduler.py:88-89`). -/
def processPending (p : PollParams) (store : List RetryQueue) : List RetryQueue :=
  store.map (pollStep p)

/-- A sequence of automated poll cycles of `_run_loop` (`scheduler.py:57-65`). -/
def runPolls (ps : List PollParams) (store : List RetryQueue) : List RetryQueue :=
  ps.foldl (fun s p => processPending p s) store

/-- `trigger_retry` (`web/routes/retry_queue.py:70-91`): the operator's manual
    reset.  Applied to any existing entry whatever its status: sets
    `status = PENDING`, `next_retry_at = utcnow()`,
    `attempt_count = max(0, attempt_count - 1)`. -/
def triggerRetry (now : ℚ) (item : RetryQueue) : RetryQueue :=
  { item with
      status := RetryStatus.pending
      nextRetryAt := now
      attemptCount := max 0 (item.attemptCount - 1) }

/-! ### The life of a single retry entry

`EntryStep` collects the transitions the running system applies to one stored
entry: a poll-cycle dispatch (only ever applied to entries selected by the
due-entry query) and the operator's manual reset.  `EntryReachable maxA e`
says `e` is a state an entry created with `max_attempts = maxA` can be in. -/

/-- One transition applied to a stored retry entry by the running system. -/
inductive EntryStep : RetryQueue → RetryQueue → Prop
  | poll (p : PollParams) (item : RetryQueue) (hdue : isDue p.now item = true) :
      EntryStep item (processItem p.registered (p.outcome item) p.baseDelay p.now item)
  | manual (now : ℚ) (item : RetryQueue) :
      EntryStep item (triggerRetry now item)

/-- States reachable by an entry created via `add_to_retry_queue` with
    `max_attempts = maxA`. -/
inductive EntryReachable (maxA : Int) : RetryQueue → Prop
  | enqueue (newId : String) (op : OperationType) (payload : String) (now : ℚ) :
      EntryReachable maxA (addToRetryQueue newId op payload maxA now)
  | step {e e' : RetryQueue} (h : EntryReachable maxA e) (hs : EntryStep e e') :
      EntryReachable maxA e'

/-! ## Maturation engine (`core/daemon.py`) -/

/-- The new `PENDING` meeting row built by `_detect_new_meetings`
    (`daemon.py:155-170`): `first_seen_at = stable_since = now`, fingerprint of
    the current transcript, source `GRANOLA`. -/
def mkPendingMeeting (hash : String → String) (newId : String) (now : ℚ)
    (r : GranolaMeeting) : Meeting :=
  { id := newId
    granolaId := some r.granolaId
    title := r.title
    transcript := r.transcript
    meetingDate := r.meetingDate
    source := MeetingSource.granola
    processedAt := none
    status := MeetingStatus.pending
    transcriptHash := some (hash r.transcript)
    firstSeenAt := some now
    stableSince := some now }

/-- The known-id set collected at `daemon.py:145-150`: all non-null
    `granola_id` values in the store. -/
def knownGranolaIds (store : List Meeting) : List String :=
  store.filterMap (fun m => m.granolaId)

/-- `GranolaParser.get_new_meetings` (`granola_parser.py:108-123`): source
    records whose id is not in the known set. -/
def getNewMeetings (known : List String) (source : List GranolaMeeting) :
    List GranolaMeeting :=
  source.filter (fun r => ¬ known.contains r.granolaId)

/-- The batch of new `Meeting` rows built by one run of
    `_detect_new_meetings` (`daemon.py:155-171`); `freshIds` supplies the
    generated uuid of each row. -/
def detectionBatch (hash : String → String) (freshIds : Nat → String) (now : ℚ)
    (source : List GranolaMeeting) (store : List Meeting) : List Meeting :=
  (getNewMeetings (knownGranolaIds store) source).enum.map
    (fun p => mkPendingMeeting hash (freshIds p.1) now p.2)

/-- `Daemon._detect_new_meetings` (`daemon.py:138-179`): the whole batch is
    inserted and committed in one transaction (`daemon.py:173`).  The store's
    uniqueness constraint on `granola_id` (`meeting.py:42`) is checked at
    commit; a violation raises, is caught at `daemon.py:175`, and the session
    is rolled back — the store is returned unchanged. -/
def detectNewMeetings (hash : String → String) (freshIds : Nat → String) (now : ℚ)
    (source : List GranolaMeeting) (store : List Meeting) : List Meeting :=
  let newMeetings := detectionBatch hash freshIds now source store
  if (knownGranolaIds (store ++ newMeetings)).Nodup then store ++ newMeetings
  else store

/-! ## Processing pipeline (`Daemon._process_meeting`, `daemon.py:294-398`) -/

/-- `ExtractedActionItem` from `services/action_extractor.py`. -/
structure ExtractedActionItem where
  title : String
  description : String
  assignee : Option String
  context : String
  weight : Int
deriving DecidableEq, Repr

/-- Result of the extraction call at `daemon.py:303-307`: a list of items, an
    `LLMError` (`daemon.py:308`), or any other exception (`daemon.py:318`). -/
inductive ExtractionOutcome
  | ok (items : List ExtractedActionItem)
  | llmFailed (msg : String)
  | raised (msg : String)
deriving DecidableEq, Repr

/-- Result of `trello_client.create_card` as observed at `daemon.py:364-398`:
    a created card (`id`, optional `shortUrl` / `url`), a `TrelloError`, or any
    other exception. -/
inductive PublishOutcome
  | created (cardId : String) (shortUrl : Option String) (url : Option String)
  | trelloFailed (msg : String)
  | raised (msg : String)
deriving DecidableEq, Repr

/-- Fate of one extracted item inside the loop at `daemon.py:328-346`: either
    the `ActionItem` insert/commit itself raises (caught at `daemon.py:343`,
    rolled back, `continue`), or the row is committed and the publish attempt
    runs with the given outcome. -/
inductive ActionOutcome
  | storeFailed (msg : String)
  | published (p : PublishOutcome)
deriving DecidableEq, Repr

/-- Python's `a or b` on optional strings (`daemon.py:371`):
    `card.get("shortUrl") or card.get("url")` — empty strings are falsy. -/
def pyOrString (a b : Option String) : Option String :=
  match a with
  | some s => if s = "" then b else some s
  | none => b

/-- `Daemon._create_trello_card` (`daemon.py:355-398`) acting on a committed
    `ActionItem`:
    * publish succeeded → card id/url stored, status `SENT`;
    * `TrelloError` → status `FAILED`, error recorded, `retry_count += 1`, and
      a retry entry is enqueued with payload built from the action-item id and
      the meeting id (`daemon.py:384-393`);
    * any other exception → status `FAILED` with an "Unexpected error" message,
      and no retry entry. -/
def createTrelloCard (encodePayload : String → String → String) (retryMaxAttempts : Int)
    (now : ℚ) (retryId : String) (m : Meeting) (a : ActionItem)
    (outcome : PublishOutcome) : ActionItem × List RetryQueue :=
  match outcome with
  | PublishOutcome.created cardId shortUrl url =>
    ({ a with
        trelloCardId := some cardId
        trelloCardUrl := pyOrString shortUrl url
        status := ActionItemStatus.sent }, [])
  | PublishOutcome.trelloFailed msg =>
    ({ a with
        status := ActionItemStatus.failed
        errorMessage := some msg
        retryCount := a.retryCount + 1 },
     [addToRetryQueue retryId OperationType.trelloCreateCard
        (encodePayload a.id m.id) retryMaxAttempts now])
  | PublishOutcome.raised msg =>
    ({ a with
        status := ActionItemStatus.failed
        errorMessage := some ("Unexpected error: " ++ msg) }, [])

/-- One iteration of the extracted-items loop (`daemon.py:328-346`): the
    `ActionItem` row is created with status `PENDING` and committed, then
    `_create_trello_card` runs; when the insert/commit raises, the iteration
    is rolled back and skipped (`none`). -/
def processOneExtracted (encodePayload : String → String → String)
    (retryMaxAttempts : Int) (now : ℚ) (actionId retryId : String) (m : Meeting)
    (item : ExtractedActionItem) (outcome : ActionOutcome) :
    Option (ActionItem × List RetryQueue) :=
  match outcome with
  | ActionOutcome.storeFailed _ => none
  | ActionOutcome.published p =>
    let a : ActionItem :=
      { id := actionId
        meetingId := m.id
        title := item.title
        description := some item.description
        context := some item.context
        assignee := item.assignee
        trelloCardId := none
        trelloCardUrl := none
        status := ActionItemStatus.pending
        retryCount := 0
        errorMessage := none }
    some (createTrelloCard encodePayload retryMaxAttempts now retryId m a p)

/-- The persisted effect of one `_process_meeting` call.  `meetingAttrError`
    records the value the daemon assigns to `meeting.error_message` at
    `daemon.py:321`; the `Meeting` model declares no such mapped column
    (`models/meeting.py`), so this assignment creates a transient Python
    attribute that is never persisted.  `alerts` are the
    `notifier.send_alert` calls emitted (title, message). -/
structure ProcessResult where
  meeting : Meeting
  meetingAttrError : Option String
  actions : List ActionItem
  retryEntries : List RetryQueue
  alerts : List (String × String)
deriving Repr

/-- `Daemon._process_meeting` (`daemon.py:294-353`):
    1. status `PROCESSING`, committed (`daemon.py:299-300`);
    2. extraction: `LLMError` → status `FAILED` (no error column written) plus
       an alert; other exception → status `FAILED` plus the transient
       `error_message` attribute; both return with no output records;
    3. otherwise each extracted item is handled by `processOneExtracted`
       (outcome of item `k` given by `outcomes k`), and finally the meeting is
       marked `PROCESSED` with `processed_at` stamped. -/
def processMeeting (encodePayload : String → String → String)
    (actionIds retryIds : Nat → String) (retryMaxAttempts : Int) (now : ℚ)
    (m : Meeting) (extraction : ExtractionOutcome) (outcomes : Nat → ActionOutcome) :
    ProcessResult :=
  let m1 := { m with status := MeetingStatus.processing }
  match extraction with
  | ExtractionOutcome.llmFailed msg =>
    { meeting := { m1 with status := MeetingStatus.failed }
      meetingAttrError := none
      actions := []
      retryEntries := []
      alerts := [("LLM Extraction Failed", "Meeting: " ++ m.title ++ "\nError: " ++ msg)] }
  | ExtractionOutcome.raised msg =>
    { meeting := { m1 with status := MeetingStatus.failed }
      meetingAttrError := some ("Processing error: " ++ msg)
      actions := []
      retryEntries := []
      alerts := [] }
  | ExtractionOutcome.ok items =>
    let handled := items.enum.filterMap
      (fun p => processOneExtracted encodePayload retryMaxAttempts now
        (actionIds p.1) (retryIds p.1) m1 p.2 (outcomes p.1))
    { meeting := { m1 with
        status := MeetingStatus.processed
        processedAt := some now }
      meetingAttrError := none
      actions := handled.map Prod.fst
      retryEntries := handled.flatMap Prod.snd
      alerts := [] }

/-! ## Claim C1 — the max-wait timeout escape valve -/

/-- C2, corrected.  When the extraction call fails for a `READY` Item,
    `_process_meeting` transitions the Item to `FAILED` and creates no output
    records and no retry entries — but it does NOT record a non-null error
    message on the Item: in the `LLMError` branch (`daemon.py:308-317`) no
    error field is written at all (the error text goes only into an alert),
    and in the generic-exception branch (`daemon.py:318-323`) the daemon
    assigns `meeting.error_message`, an attribute the `Meeting` model does not
    map to any column, so nothing is persisted either way. -/
theorem c2_extraction_failure (encodePayload : String → String → String)
    (actionIds retryIds : Nat → String) (retryMaxAttempts : Int) (now : ℚ)
    (m : Meeting) (msg : String) (outcomes : Nat → ActionOutcome) :
    ((processMeeting encodePayload actionIds retryIds retryMaxAttempts now m
        (ExtractionOutcome.llmFailed msg) outcomes).meeting.status = MeetingStatus.failed ∧
      (processMeeting encodePayload actionIds retryIds retryMaxAttempts now m
        (ExtractionOutcome.llmFailed msg) outcomes).actions = [] ∧
      (processMeeting encodePayload actionIds retryIds retryMaxAttempts now m
        (ExtractionOutcome.llmFailed msg) outcomes).retryEntries = [] ∧
      (processMeeting encodePayload actionIds retryIds retryMaxAttempts now m
        (ExtractionOutcome.llmFailed msg) outcomes).meetingAttrError = none ∧
      (processMeeting encodePayload actionIds retryIds retryMaxAttempts now m
        (ExtractionOutcome.llmFailed msg) outcomes).alerts
        = [("LLM Extraction Failed", "Meeting: " ++ m.title ++ "\nError: " ++ msg)]) ∧
    ((processMeeting encodePayload actionIds retryIds retryMaxAttempts now m
        (ExtractionOutcome.raised msg) outcomes).meeting.status = MeetingStatus.failed ∧
      (processMeeting encodePayload actionIds retryIds retryMaxAttempts now m
        (ExtractionOutcome.raised msg) outcomes).actions = [] ∧
      (processMeeting encodePayload actionIds retryIds retryMaxAttempts now m
        (ExtractionOutcome.raised msg) outcomes).retryEntries = [] ∧
      (processMeeting encodePayload actionIds retryIds retryMaxAttempts now m
        (ExtractionOutcome.raised msg) outcomes).meetingAttrError
        = some ("Processing error: " ++ msg)) :=
  ⟨⟨rfl, rfl, rfl, rfl, rfl⟩, ⟨rfl, rfl, rfl, rfl⟩⟩

/-- Meeting of the C2 counterexample: a `READY` Item about to be processed. -/
def c2xMeeting : Meeting :=
  { id := "m2x", granolaId := some "g2", title := "weekly sync",
    transcript := "a fairly long transcript", meetingDate := none,
    source := MeetingSource.granola, processedAt := none,
    status := MeetingStatus.ready, transcriptHash := some "h2",
    firstSeenAt := some 0, stableSince := some 0 }

/-- C2 counterexample.  The extraction call raises `LLMError` for this
    `READY` Item: the Item does become `FAILED` and no output records are
    created, but no error message is recorded anywhere — refuting the
    claimed "non-null recorded error message" (the `Meeting` model has no
    error column, and the `LLMError` branch writes no error attribute at
    all). -/
theorem c2_counterexample :
    (processMeeting (fun a b => a ++ "|" ++ b) (fun _ => "a0") (fun _ => "r0") 5 100
        c2xMeeting (ExtractionOutcome.llmFailed "connection refused")
        (fun _ => ActionOutcome.published (PublishOutcome.created "c" none none))).meeting.status
      = MeetingStatus.failed ∧
    (processMeeting (fun a b => a ++ "|" ++ b) (fun _ => "a0") (fun _ => "r0") 5 100
        c2xMeeting (ExtractionOutcome.llmFailed "connection refused")
        (fun _ => ActionOutcome.published (PublishOutcome.created "c" none none))).meetingAttrError
      = none ∧
    (processMeeting (fun a b => a ++ "|" ++ b) (fun _ => "a0") (fun _ => "r0") 5 100
        c2xMeeting (ExtractionOutcome.llmFailed "connection refused")
        (fun _ => ActionOutcome.published (PublishOutcome.created "c" none none))).actions
      = [] ∧
    (processMeeting (fun a b => a ++ "|" ++ b) (fun _ => "a0") (fun _ => "r0") 5 100
        c2xMeeting (ExtractionOutcome.llmFailed "connection refused")
        (fun _ => ActionOutcome.published (PublishOutcome.created "c" none none))).retryEntries
      = [] :=
  ⟨rfl, rfl, rfl, rfl⟩

/-! ## Claim C3 — dispatch mutation vs handler lookup order -/

/-- C3, corrected.  In `_process_item` the handler lookup comes FIRST
    (`scheduler.py:101-105`): an entry whose operation kind has no registered
    handler is skipped with no mutation at all (it stays `PENDING` with its
    `attempt_count` unchanged).  Only for entries with a registered handler is
    the dispatch mutation (`IN_PROGRESS`, `attempt_count += 1`) applied — and
    then it is applied and committed before the handler outcome is folded
    in. -/
theorem c3_dispatch_order (registered : OperationType → Bool)
    (outcome : HandlerOutcome) (baseDelay now : ℚ) (item : RetryQueue) :
    (registered item.operationType = false →
      processItem registered outcome baseDelay now item = item) ∧
    (registered item.operationType = true →
      (dispatchBegin item).status = RetryStatus.inProgress ∧
      (dispatchBegin item).attemptCount = item.attemptCount + 1 ∧
      processItem registered outcome baseDelay now item =
        (match outcome with
          | HandlerOutcome.success =>
            { dispatchBegin item with status := RetryStatus.succeeded }
          | HandlerOutcome.returnedFalse =>
            handleFailure baseDelay now (dispatchBegin item) "Handler returned False"
          | HandlerOutcome.raised msg =>
            handleFailure baseDelay now (dispatchBegin item) msg)) := by
  constructor
  · intro h
    simp [processItem, h]
  · intro h
    refine ⟨rfl, rfl, ?_⟩
    simp only [processItem, h, Bool.true_eq_false, if_false]

/-- Entry used by the C3 witness: `trello_create_card` has a registered
    handler. -/
def c3wEntry : RetryQueue :=
  { id := "r3w", operationType := OperationType.trelloCreateCard, payload := "p",
    attemptCount := 1, maxAttempts := 5, nextRetryAt := 0,
    status := RetryStatus.pending, errorMessage := none }

/-- C3 witness: with a registered handler that succeeds, the dispatch
    mutation is applied (attempt count incremented, `IN_PROGRESS` before the
    outcome) and the final state is `SUCCEEDED`. -/
theorem c3_dispatch_order_witness :
    processItem (fun _ => true) HandlerOutcome.success 30 0 c3wEntry
      = { dispatchBegin c3wEntry with status := RetryStatus.succeeded } ∧
    (dispatchBegin c3wEntry).attemptCount = c3wEntry.attemptCount + 1 ∧
    (dispatchBegin c3wEntry).status = RetryStatus.inProgress := by
  have h := c3_dispatch_order (fun _ => true) HandlerOutcome.success 30 0 c3wEntry
  exact ⟨(h.2 rfl).2.2, (h.2 rfl).2.1, (h.2 rfl).1⟩

/-- Entry of the C3 counterexample: due (`PENDING`, `next_retry_at <= now`)
    but of a kind with no registered handler. -/
def c3xEntry : RetryQueue :=
  { id := "r3x", operationType := OperationType.notification, payload := "p",
    attemptCount := 0, maxAttempts := 5, nextRetryAt := 0,
    status := RetryStatus.pending, errorMessage := none }

/-- C3 counterexample.  A due entry whose operation kind has no registered
    handler is loaded by the poll query, yet `_process_item` leaves it
    completely untouched: its `attempt_count` stays `0` (the claim says it is
    incremented and the entry set `IN_PROGRESS` before the lookup). -/
theorem c3_counterexample :
    isDue 0 c3xEntry = true ∧
    processItem (fun _ => false) HandlerOutcome.success 30 0 c3xEntry = c3xEntry ∧
    (processItem (fun _ => false) HandlerOutcome.success 30 0 c3xEntry).attemptCount = 0 ∧
    ¬ (processItem (fun _ => false) HandlerOutcome.success 30 0 c3xEntry).attemptCount
        = c3xEntry.attemptCount + 1 ∧
    (processItem (fun _ => false) HandlerOutcome.success 30 0 c3xEntry).status
      = RetryStatus.pending := by
  refine ⟨by simp [isDue, c3xEntry], rfl, rfl, by simp [processItem, c3xEntry], rfl⟩

/-! ## Claim C4 — duplicate external id during detection -/

/-- C4, corrected.  The whole detection batch of `_detect_new_meetings` is
    committed as ONE transaction (`daemon.py:173`): when the uniqueness
    constraint on `granola_id` rejects the commit, the exception handler rolls
    the whole session back (`daemon.py:175-177`) and NO Item of the batch is
    committed — the rest of the batch does not proceed. -/
theorem c4_detection_transaction (hash : String → String) (freshIds : Nat → String)
    (now : ℚ) (source : List GranolaMeeting) (store : List Meeting) :
    (¬ (knownGranolaIds (store ++ detectionBatch hash freshIds now source store)).Nodup →
      detectNewMeetings hash freshIds now source store = store) ∧
    ((knownGranolaIds (store ++ detectionBatch hash freshIds now source store)).Nodup →
      detectNewMeetings hash freshIds now source store
        = store ++ detectionBatch hash freshIds now source store) := by
  constructor <;> intro h <;> simp [detectNewMeetings, h]

/-- Source records of the C4 scenario: two records carry the same external id
    `"a"`, one fresh record carries `"b"`. -/
def c4xA1 : GranolaMeeting :=
  { granolaId := "a", title := "A first", transcript := "ta1", meetingDate := none,
    participants := [] }

/-- Second source record with the duplicate external id `"a"`. -/
def c4xA2 : GranolaMeeting :=
  { granolaId := "a", title := "A second", transcript := "ta2", meetingDate := none,
    participants := [] }

/-- Fresh source record with external id `"b"`. -/
def c4xB : GranolaMeeting :=
  { granolaId := "b", title := "B", transcript := "tb", meetingDate := none,
    participants := [] }

/-- C4 witness: the corrected theorem applied to the concrete duplicate
    batch — the store comes back unchanged (empty). -/
theorem c4_detection_transaction_witness :
    detectNewMeetings (fun s => s) (fun k => toString k) 0 [c4xA1, c4xA2, c4xB] [] = [] :=
  (c4_detection_transaction (fun s => s) (fun k => toString k) 0 [c4xA1, c4xA2, c4xB] []).1
    (by simp [detectionBatch, getNewMeetings, knownGranolaIds, mkPendingMeeting,
      c4xA1, c4xA2, c4xB, List.enum])

/-- C4 counterexample.  A detection batch contains a duplicate of external id
    `"a"` plus a fresh record `"b"`.  The claim says only the duplicate is
    skipped and the Item for `"b"` is still committed; the code rolls back the
    whole batch, so after the phase the store holds no Item at all — in
    particular none with external id `"b"`. -/
theorem c4_counterexample :
    detectNewMeetings (fun s => s) (fun k => toString k) 0 [c4xA1, c4xA2, c4xB] [] = [] ∧
    ¬ ∃ m, m ∈ detectNewMeetings (fun s => s) (fun k => toString k) 0
        [c4xA1, c4xA2, c4xB] [] ∧ m.granolaId = some "b" := by
  have h : detectNewMeetings (fun s => s) (fun k => toString k) 0 [c4xA1, c4xA2, c4xB] []
      = [] := by
    simp [detectNewMeetings, detectionBatch, getNewMeetings, knownGranolaIds,
      mkPendingMeeting, c4xA1, c4xA2, c4xB, List.enum]
  refine ⟨h, ?_⟩
  rintro ⟨m, hm, -⟩
  rw [h] at hm
  exact List.not_mem_nil m hm

/-! ## Claim C5 — the `attempt_count <= max_attempts` invariant -/

/-- Helper: `_handle_failure` keeps `max_attempts` and `attempt_count`
    unchanged, and re-queues an entry as `PENDING` only when its attempt count
    is still strictly below `max_attempts`. -/
theorem handleFailure_fields (baseDelay now : ℚ) (item : RetryQueue) (err : String) :
    (handleFailure baseDelay now item err).maxAttempts = item.maxAttempts ∧
    (handleFailure baseDelay now item err).attemptCount = item.attemptCount ∧
    ((handleFailure baseDelay now item err).status = RetryStatus.pending →
      item.attemptCount < item.maxAttempts) := by
  unfold handleFailure
  by_cases hc : item.attemptCount ≥ item.maxAttempts
  · rw [if_pos hc]
    exact ⟨rfl, rfl, fun h => RetryStatus.noConfusion h⟩
  · rw [if_neg hc]
    exact ⟨rfl, rfl, fun _ => by omega⟩

/-- The strengthened inductive invariant of a retry entry created with
    `max_attempts = maxA`: the stored `max_attempts` never changes, the
    attempt count stays within `[0, maxA]`, and a `PENDING` entry always has
    a strictly smaller attempt count. -/
def EntryInv (maxA : Int) (e : RetryQueue) : Prop :=
  e.maxAttempts = maxA ∧ 0 ≤ e.attemptCount ∧ e.attemptCount ≤ maxA ∧
    (e.status = RetryStatus.pending → e.attemptCount < maxA)

/-- Helper: every transition of the running system preserves the invariant
    when `maxA ≥ 1`. -/
theorem entryStep_preserves_inv (maxA : Int) (hmaxA : 1 ≤ maxA)
    (e e' : RetryQueue) (hs : EntryStep e e') (hinv : EntryInv maxA e) :
    EntryInv maxA e' := by
  cases hs with
  | poll p item hdue =>
    obtain ⟨hmax, h0, hle, hpend⟩ := hinv
    have hstat : e.status = RetryStatus.pending := by
      simp only [isDue, Bool.and_eq_true, beq_iff_eq, decide_eq_true_eq] at hdue
      exact hdue.1
    have hlt : e.attemptCount < maxA := hpend hstat
    by_cases hreg : p.registered e.operationType = false
    · simp only [processItem, if_pos hreg]
      exact ⟨hmax, h0, hle, hpend⟩
    · simp only [processItem, if_neg hreg]
      cases p.outcome e with
      | success =>
        refine ⟨?_, ?_, ?_, fun hc => RetryStatus.noConfusion hc⟩
        · simp only [dispatchBegin]; exact hmax
        · simp only [dispatchBegin]; omega
        · simp only [dispatchBegin]; omega
      | returnedFalse =>
        obtain ⟨hm, ha, hp⟩ := handleFailure_fields p.baseDelay p.now
          (dispatchBegin e) "Handler returned False"
        refine ⟨?_, ?_, ?_, ?_⟩
        · rw [hm]; simp only [dispatchBegin]; exact hmax
        · rw [ha]; simp only [dispatchBegin]; omega
        · rw [ha]; simp only [dispatchBegin]; omega
        · intro hc
          have := hp hc
          rw [ha]
          simp only [dispatchBegin] at this ⊢
          omega
      | raised msg =>
        obtain ⟨hm, ha, hp⟩ := handleFailure_fields p.baseDelay p.now
          (dispatchBegin e) msg
        refine ⟨?_, ?_, ?_, ?_⟩
        · rw [hm]; simp only [dispatchBegin]; exact hmax
        · rw [ha]; simp only [dispatchBegin]; omega
        · rw [ha]; simp only [dispatchBegin]; omega
        · intro hc
          have := hp hc
          rw [ha]
          simp only [dispatchBegin] at this ⊢
          omega
  | manual now item =>
    obtain ⟨hmax, h0, hle, hpend⟩ := hinv
    refine ⟨hmax, ?_, ?_, ?_⟩
    · simp only [triggerRetry]; omega
    · simp only [triggerRetry]; omega
    · intro _; simp only [triggerRetry]; omega

/-- Helper: the invariant holds in every reachable state when `maxA ≥ 1`. -/
theorem entryReachable_invariant (maxA : Int) (hmaxA : 1 ≤ maxA) {e : RetryQueue}
    (h : EntryReachable maxA e) : EntryInv maxA e := by
  induction h with
  | enqueue newId op payload now =>
    refine ⟨rfl, ?_, ?_, ?_⟩ <;> simp only [addToRetryQueue] <;> omega
  | step h hs ih => exact entryStep_preserves_inv maxA hmaxA _ _ hs ih

/-- C5, corrected.  For every retry entry created with `max_attempts ≥ 1`,
    the invariant `attempt_count <= max_attempts` holds in every state
    reachable through the transitions performed by the core (creation via
    `add_to_retry_queue`, poll-cycle dispatch through `_process_item`
    including its committed intermediate mutation and the success/failure
    handling, and the operator reset of `trigger_retry`).  For
    `max_attempts = 0` the invariant is violated by the very first dispatch
    (see the counterexample), so the restriction to `max_attempts ≥ 1` is
    necessary. -/
theorem c5_attempt_count_invariant (maxA : Int) (hmaxA : 1 ≤ maxA)
    {e : RetryQueue} (h : EntryReachable maxA e) :
    e.attemptCount ≤ e.maxAttempts := by
  obtain ⟨hmax, -, hle, -⟩ := entryReachable_invariant maxA hmaxA h
  rw [hmax]
  exact hle

/-- C5 witness: a freshly enqueued entry with `max_attempts = 3` satisfies
    the invariant. -/
theorem c5_attempt_count_invariant_witness :
    (addToRetryQueue "r5w" OperationType.notification "p" 3 0).attemptCount
      ≤ (addToRetryQueue "r5w" OperationType.notification "p" 3 0).maxAttempts :=
  c5_attempt_count_invariant 3 (by omega)
    (EntryReachable.enqueue "r5w" OperationType.notification "p" 0)

/-- Entry of the C5 counterexample: enqueued with `max_attempts = 0`
    (`add_to_retry_queue` accepts any `max_attempts` and the configured value
    is not validated). -/
def c5xEntry0 : RetryQueue :=
  addToRetryQueue "r5x" OperationType.trelloCreateCard "p" 0 0

/-- State of the C5 counterexample entry after its first dispatch. -/
def c5xEntry1 : RetryQueue :=
  processItem (fun _ => true) HandlerOutcome.success 30 0 c5xEntry0

/-- C5 counterexample.  An entry enqueued with `max_attempts = 0` is due
    immediately; the first dispatch increments `attempt_count` to `1`, so
    after a transition performed by the core the claimed invariant
    `attempt_count <= max_attempts` is false. -/
theorem c5_counterexample :
    EntryReachable 0 c5xEntry1 ∧
    c5xEntry1.attemptCount = 1 ∧
    c5xEntry1.maxAttempts = 0 ∧
    ¬ c5xEntry1.attemptCount ≤ c5xEntry1.maxAttempts := by
  refine ⟨EntryReachable.step
    (EntryReachable.enqueue "r5x" OperationType.trelloCreateCard "p" 0)
    (EntryStep.poll ⟨fun _ => true, fun _ => HandlerOutcome.success, 30, 0⟩ c5xEntry0 ?_),
    rfl, rfl, by decide⟩
  simp [isDue, c5xEntry0, addToRetryQueue]

/-! ## Claim C6 — the max-attempts boundary -/

/-- One failed dispatch of an entry with a registered handler: the committed
    dispatch mutation of `_process_item` followed by `_handle_failure`. -/
def failedDispatch (baseDelay now : ℚ) (err : String) (e : RetryQueue) : RetryQueue :=
  handleFailure baseDelay now (dispatchBegin e) err

/-- `k` consecutive failed dispatches, the `i`-th performed at time
    `times i`. -/
def afterFailedDispatches (baseDelay : ℚ) (times : Nat → ℚ) (err : String)
    (e : RetryQueue) : Nat → RetryQueue
  | 0 => e
  | Nat.succ k =>
    failedDispatch baseDelay (times k) err (afterFailedDispatches baseDelay times err e k)

/-- Helper: the exact trajectory of an all-failing entry enqueued with
    `max_attempts = N`: after `k ≤ N` failed dispatches the attempt count is
    `k`; the entry is still `PENDING` while `k < N`, and (when `N ≥ 1`) it is
    `FAILED_PERMANENT` with the last error recorded exactly at `k = N`. -/
theorem afterFailedDispatches_trajectory (baseDelay : ℚ) (times : Nat → ℚ)
    (err : String) (newId : String) (op : OperationType) (payload : String)
    (N : Nat) (t0 : ℚ) :
    ∀ k : Nat, k ≤ N →
      (afterFailedDispatches baseDelay times err
          (addToRetryQueue newId op payload (N : Int) t0) k).attemptCount = (k : Int) ∧
      (afterFailedDispatches baseDelay times err
          (addToRetryQueue newId op payload (N : Int) t0) k).maxAttempts = (N : Int) ∧
      (k < N →
        (afterFailedDispatches baseDelay times err
          (addToRetryQueue newId op payload (N : Int) t0) k).status = RetryStatus.pending) ∧
      (k = N → 1 ≤ N →
        (afterFailedDispatches baseDelay times err
            (addToRetryQueue newId op payload (N : Int) t0) k).status
          = RetryStatus.failedPermanent ∧
        (afterFailedDispatches baseDelay times err
            (addToRetryQueue newId op payload (N : Int) t0) k).errorMessage = some err) := by
  intro k
  induction k with
  | zero =>
    intro _
    refine ⟨rfl, rfl, fun _ => rfl, fun h0 h1 => absurd h0.symm (by omega)⟩
  | succ k ih =>
    intro hk
    obtain ⟨hac, hmax, -, -⟩ := ih (by omega)
    have hstep : afterFailedDispatches baseDelay times err
        (addToRetryQueue newId op payload (N : Int) t0) (k + 1)
        = handleFailure baseDelay (times k) (dispatchBegin
            (afterFailedDispatches baseDelay times err
              (addToRetryQueue newId op payload (N : Int) t0) k)) err := rfl
    obtain ⟨hm, ha, -⟩ := handleFailure_fields baseDelay (times k)
      (dispatchBegin (afterFailedDispatches baseDelay times err
        (addToRetryQueue newId op payload (N : Int) t0) k)) err
    have hac1 : (dispatchBegin (afterFailedDispatches baseDelay times err
        (addToRetryQueue newId op payload (N : Int) t0) k)).attemptCount = (k : Int) + 1 := by
      simp [dispatchBegin, hac]
    have hmax1 : (dispatchBegin (afterFailedDispatches baseDelay times err
        (addToRetryQueue newId op payload (N : Int) t0) k)).maxAttempts = (N : Int) := by
      simp [dispatchBegin, hmax]
    refine ⟨by rw [hstep, ha, hac1]; push_cast; ring, by rw [hstep, hm, hmax1], ?_, ?_⟩
    · intro hlt
      rw [hstep]
      unfold handleFailure
      rw [if_neg (by rw [hac1, hmax1]; omega)]
    · intro heq _
      rw [hstep]
      unfold handleFailure
      rw [if_pos (by rw [hac1, hmax1]; omega)]
      exact ⟨rfl, rfl⟩

/-- C6, corrected for the degenerate bound.  A retry entry created with
    `max_attempts = N ≥ 1` whose dispatches all fail is still `PENDING` (in
    particular not `FAILED_PERMANENT`) after every earlier failed dispatch,
    becomes `FAILED_PERMANENT` with `last_error` recorded exactly on the
    `N`-th failed dispatch with `attempt_count = N`, and is never selected by
    a later poll query.  The final conjunct ties `failedDispatch` to the real
    dispatch function: for an entry with a registered handler whose handler
    raises, `_process_item` computes exactly one `failedDispatch`.  For
    `N = 0` the statement fails (see the counterexample): the entry only
    becomes `FAILED_PERMANENT` on its 1st failed dispatch. -/
theorem c6_max_attempts_boundary (baseDelay : ℚ) (times : Nat → ℚ) (err : String)
    (newId : String) (op : OperationType) (payload : String) (t0 : ℚ)
    (N : Nat) (hN : 1 ≤ N) :
    (∀ k, k < N →
      (afterFailedDispatches baseDelay times err
          (addToRetryQueue newId op payload (N : Int) t0) k).status
        ≠ RetryStatus.failedPermanent) ∧
    (afterFailedDispatches baseDelay times err
        (addToRetryQueue newId op payload (N : Int) t0) N).status
      = RetryStatus.failedPermanent ∧
    (afterFailedDispatches baseDelay times err
        (addToRetryQueue newId op payload (N : Int) t0) N).errorMessage = some err ∧
    (afterFailedDispatches baseDelay times err
        (addToRetryQueue newId op payload (N : Int) t0) N).attemptCount = (N : Int) ∧
    (∀ t, isDue t (afterFailedDispatches baseDelay times err
        (addToRetryQueue newId op payload (N : Int) t0) N) = false) ∧
    (∀ (registered : OperationType → Bool) (b n : ℚ) (e : RetryQueue) (msg : String),
      registered e.operationType = true →
      processItem registered (HandlerOutcome.raised msg) b n e = failedDispatch b n msg e) := by
  have htraj := afterFailedDispatches_trajectory baseDelay times err newId op payload N t0
  have hfinal := (htraj N (le_refl N)).2.2.2 rfl hN
  refine ⟨?_, hfinal.1, hfinal.2, (htraj N (le_refl N)).1, ?_, ?_⟩
  · intro k hk
    rw [(htraj k (by omega)).2.2.1 hk]
    exact fun hc => RetryStatus.noConfusion hc
  · intro t
    simp [isDue, hfinal.1]
  · intro registered b n e msg hreg
    simp [processItem, failedDispatch, hreg]

/-- C6 witness: with `max_attempts = 3` and every dispatch failing, the entry
    is not yet permanently failed after the 2nd failure and is
    `FAILED_PERMANENT` with `attempt_count = 3` exactly after the 3rd. -/
theorem c6_max_attempts_boundary_witness :
    (afterFailedDispatches 30 (fun _ => 0) "boom"
        (addToRetryQueue "r6w" OperationType.trelloCreateCard "p" ((3 : Nat) : Int) 0) 2).status
      ≠ RetryStatus.failedPermanent ∧
    (afterFailedDispatches 30 (fun _ => 0) "boom"
        (addToRetryQueue "r6w" OperationType.trelloCreateCard "p" ((3 : Nat) : Int) 0) 3).status
      = RetryStatus.failedPermanent ∧
    (afterFailedDispatches 30 (fun _ => 0) "boom"
        (addToRetryQueue "r6w" OperationType.trelloCreateCard "p" ((3 : Nat) : Int) 0) 3).attemptCount
      = ((3 : Nat) : Int) := by
  have h := c6_max_attempts_boundary 30 (fun _ => 0) "boom" "r6w"
    OperationType.trelloCreateCard "p" 0 3 (by omega)
  exact ⟨h.1 2 (by omega), h.2.1, h.2.2.2.1⟩

/-- C6 counterexample.  For `N = 0` the claim asserts the entry reaches
    `FAILED_PERMANENT` exactly on the 0th failed dispatch and never on a later
    one.  The code disagrees: after 0 failed dispatches the entry is still
    `PENDING`, and it becomes `FAILED_PERMANENT` on its 1st failed
    dispatch — a later one. -/
theorem c6_counterexample :
    (afterFailedDispatches 30 (fun _ => 0) "boom"
        (addToRetryQueue "r6x" OperationType.notification "p" 0 0) 0).status
      = RetryStatus.pending ∧
    ¬ (afterFailedDispatches 30 (fun _ => 0) "boom"
        (addToRetryQueue "r6x" OperationType.notification "p" 0 0) 0).status
      = RetryStatus.failedPermanent ∧
    (afterFailedDispatches 30 (fun _ => 0) "boom"
        (addToRetryQueue "r6x" OperationType.notification "p" 0 0) 1).status
      = RetryStatus.failedPermanent := by
  refine ⟨rfl, fun hc => RetryStatus.noConfusion hc, ?_⟩
  show (handleFailure 30 0 (dispatchBegin
    (addToRetryQueue "r6x" OperationType.notification "p" 0 0)) "boom").status
    = RetryStatus.failedPermanent
  unfold handleFailure
  rw [if_pos (by simp [dispatchBegin, addToRetryQueue])]

/-! ## Claim C7 — deterministic exponential backoff -/

/-- C7, confirmed.  A dispatch failure while `attempt_count < max_attempts`
    returns the entry to `PENDING` with
    `next_attempt_at = now + base_delay * 2 ^ (attempt_count - 1)` and the
    error recorded; the delay is a function of `attempt_count` and
    `base_delay` alone, and with `base_delay = 30` the failing attempts
    `1..4` produce deltas `30`, `60`, `120`, `240`. -/
theorem c7_backoff_formula (baseDelay now : ℚ) (item : RetryQueue) (err : String)
    (h : item.attemptCount < item.maxAttempts) :
    (handleFailure baseDelay now item err).status = RetryStatus.pending ∧
    (handleFailure baseDelay now item err).nextRetryAt
      = now + baseDelay * (2 : ℚ) ^ (item.attemptCount - 1) ∧
    (handleFailure baseDelay now item err).errorMessage = some err ∧
    (handleFailure baseDelay now item err).attemptCount = item.attemptCount ∧
    (baseDelay = 30 →
      (item.attemptCount = 1 →
        (handleFailure baseDelay now item err).nextRetryAt = now + 30) ∧
      (item.attemptCount = 2 →
        (handleFailure baseDelay now item err).nextRetryAt = now + 60) ∧
      (item.attemptCount = 3 →
        (handleFailure baseDelay now item err).nextRetryAt = now + 120) ∧
      (item.attemptCount = 4 →
        (handleFailure baseDelay now item err).nextRetryAt = now + 240)) := by
  have hnot : ¬ item.attemptCount ≥ item.maxAttempts := by omega
  unfold handleFailure backoffDelay
  rw [if_neg hnot]
  refine ⟨rfl, rfl, rfl, rfl, ?_⟩
  rintro rfl
  refine ⟨?_, ?_, ?_, ?_⟩ <;> (intro hac; rw [hac]; norm_num)

/-- Entry of the C7 witness: its 2nd attempt is about to fail. -/
def c7wEntry : RetryQueue :=
  { id := "r7w", operationType := OperationType.trelloCreateCard, payload := "p",
    attemptCount := 2, maxAttempts := 5, nextRetryAt := 0,
    status := RetryStatus.inProgress, errorMessage := none }

/-- C7 witness: failing attempt 2 with `base_delay = 30` at `now = 100`
    re-queues the entry as `PENDING` with `next_attempt_at = 100 + 60`. -/
theorem c7_backoff_formula_witness :
    (handleFailure 30 100 c7wEntry "boom").status = RetryStatus.pending ∧
    (handleFailure 30 100 c7wEntry "boom").nextRetryAt = 100 + 60 ∧
    (handleFailure 30 100 c7wEntry "boom").errorMessage = some "boom" := by
  have h := c7_backoff_formula 30 100 c7wEntry "boom" (by decide)
  exact ⟨h.1, (h.2.2.2.2 rfl).2.1 rfl, h.2.2.1⟩

/-! ## Claim C8 — terminal immutability under poll cycles -/

/-- Helper: a sequence of poll cycles acts pointwise on the store. -/
theorem runPolls_eq_map (ps : List PollParams) (store : List RetryQueue) :
    runPolls ps store = store.map (fun e => ps.foldl (fun s p => pollStep p s) e) := by
  induction ps generalizing store with
  | nil => simp [runPolls]
  | cons p ps ih =>
    show runPolls ps (processPending p store) = _
    rw [ih (processPending p store)]
    simp [processPending, List.map_map]

/-- C8, confirmed.  An entry whose status is `SUCCEEDED` or
    `FAILED_PERMANENT` is never selected by the due-entry query of
    `_process_pending`, so every sequence of automated poll cycles leaves it
    exactly as it is (status and `attempt_count` included); and a sequence of
    poll cycles over the whole store is exactly this pointwise action. -/
theorem c8_terminal_immutability (ps : List PollParams) (e : RetryQueue)
    (hterm : e.status = RetryStatus.succeeded ∨ e.status = RetryStatus.failedPermanent) :
    ps.foldl (fun s p => pollStep p s) e = e ∧
    ∀ store : List RetryQueue,
      runPolls ps store = store.map (fun x => ps.foldl (fun s p => pollStep p s) x) := by
  constructor
  · induction ps with
    | nil => rfl
    | cons p ps ih =>
      have hstep : pollStep p e = e := by
        have hdue : isDue p.now e = false := by
          rcases hterm with h | h <;> simp [isDue, h]
        simp [pollStep, hdue]
      show List.foldl (fun s p => pollStep p s) (pollStep p e) ps = e
      rw [hstep]
      exact ih
  · exact fun store => runPolls_eq_map ps store

/-- Entry of the C8 witness: already `SUCCEEDED`. -/
def c8wEntry : RetryQueue :=
  { id := "r8w", operationType := OperationType.trelloCreateCard, payload := "p",
    attemptCount := 2, maxAttempts := 5, nextRetryAt := 0,
    status := RetryStatus.succeeded, errorMessage := none }

/-- Poll parameters of the C8 witness: a poll with a registered handler that
    would fail everything it dispatches, run at a late time. -/
def c8wParams : PollParams :=
  { registered := fun _ => true, outcome := fun _ => HandlerOutcome.raised "x",
    baseDelay := 30, now := 1000 }

/-- C8 witness: two such poll cycles leave the succeeded entry untouched. -/
theorem c8_terminal_immutability_witness :
    [c8wParams, c8wParams].foldl (fun s p => pollStep p s) c8wEntry = c8wEntry ∧
    runPolls [c8wParams, c8wParams] [c8wEntry]
      = [c8wEntry].map (fun x => [c8wParams, c8wParams].foldl (fun s p => pollStep p s) x) := by
  have h := c8_terminal_immutability [c8wParams, c8wParams] c8wEntry (Or.inl rfl)
  exact ⟨h.1, h.2 [c8wEntry]⟩

/-! ## Claim C9 — publish failures never fail the Item -/

/-- C9, confirmed.  When extraction succeeds, `_process_meeting` always ends
    with the Item `PROCESSED` and `processed_at` stamped, whatever the
    per-item outcomes were (so the Item never becomes `FAILED` through a
    publish failure); a `TrelloError` publish failure marks exactly that
    output record `FAILED` with the error recorded and its retry counter
    incremented, and returns exactly one enqueued retry entry of kind
    `trello_create_card` whose payload is built from the action-item id and
    the meeting id; and for every position whose publish attempt fails with a
    `TrelloError`, that retry entry is in the `retryEntries` committed by the
    run. -/
theorem c9_publish_failures_do_not_fail_item (encodePayload : String → String → String)
    (actionIds retryIds : Nat → String) (retryMaxAttempts : Int) (now : ℚ)
    (m : Meeting) (items : List ExtractedActionItem) (outcomes : Nat → ActionOutcome) :
    ((processMeeting encodePayload actionIds retryIds retryMaxAttempts now m
        (ExtractionOutcome.ok items) outcomes).meeting.status = MeetingStatus.processed ∧
      (processMeeting encodePayload actionIds retryIds retryMaxAttempts now m
        (ExtractionOutcome.ok items) outcomes).meeting.processedAt = some now ∧
      (processMeeting encodePayload actionIds retryIds retryMaxAttempts now m
        (ExtractionOutcome.ok items) outcomes).meeting.status ≠ MeetingStatus.failed) ∧
    (∀ (a : ActionItem) (mm : Meeting) (msg rid : String),
      createTrelloCard encodePayload retryMaxAttempts now rid mm a
          (PublishOutcome.trelloFailed msg)
        = ({ a with
              status := ActionItemStatus.failed
              errorMessage := some msg
              retryCount := a.retryCount + 1 },
            [addToRetryQueue rid OperationType.trelloCreateCard
              (encodePayload a.id mm.id) retryMaxAttempts now])) ∧
    (∀ (k : Nat), k < items.length → ∀ (msg : String),
      outcomes k = ActionOutcome.published (PublishOutcome.trelloFailed msg) →
      addToRetryQueue (retryIds k) OperationType.trelloCreateCard
          (encodePayload (actionIds k) m.id) retryMaxAttempts now
        ∈ (processMeeting encodePayload actionIds retryIds retryMaxAttempts now m
            (ExtractionOutcome.ok items) outcomes).retryEntries) := by
  refine ⟨⟨rfl, rfl, fun hc => MeetingStatus.noConfusion hc⟩, fun a mm msg rid => rfl, ?_⟩
  intro k hk msg hout
  have hmem : (k, items.get ⟨k, hk⟩) ∈ items.enum :=
    List.mk_mem_enum_iff_getElem?.2 (by simp)
  have hpair : processOneExtracted encodePayload retryMaxAttempts now (actionIds k)
      (retryIds k) { m with status := MeetingStatus.processing } (items.get ⟨k, hk⟩)
      (outcomes k)
      = some
        ({ id := actionIds k, meetingId := m.id, title := (items.get ⟨k, hk⟩).title,
            description := some (items.get ⟨k, hk⟩).description,
            context := some (items.get ⟨k, hk⟩).context,
            assignee := (items.get ⟨k, hk⟩).assignee,
            trelloCardId := none, trelloCardUrl := none,
            status := ActionItemStatus.failed, retryCount := 0 + 1,
            errorMessage := some msg },
          [addToRetryQueue (retryIds k) OperationType.trelloCreateCard
            (encodePayload (actionIds k) m.id) retryMaxAttempts now]) := by
    rw [hout]
    rfl
  show _ ∈ (List.filterMap _ items.enum).flatMap Prod.snd
  exact List.mem_flatMap.2 ⟨_, List.mem_filterMap.2 ⟨(k, items.get ⟨k, hk⟩), hmem, hpair⟩,
    by simp⟩

/-- Meeting of the C9 witness: a `READY` Item being processed. -/
def c9wMeeting : Meeting :=
  { id := "m9w", granolaId := some "g9", title := "planning",
    transcript := "a transcript", meetingDate := none,
    source := MeetingSource.granola, processedAt := none,
    status := MeetingStatus.ready, transcriptHash := some "h9",
    firstSeenAt := some 0, stableSince := some 0 }

/-- Extracted item of the C9 witness. -/
def c9wItem : ExtractedActionItem :=
  { title := "send summary", description := "send the summary", assignee := some "sam",
    context := "agreed near the end", weight := 3 }

/-- C9 witness: with a single extracted item whose publish fails with a
    `TrelloError`, the Item still ends `PROCESSED` with `processed_at`
    stamped, and the retry entry for that output record is committed. -/
theorem c9_publish_failures_do_not_fail_item_witness :
    (processMeeting (fun a b => a ++ "|" ++ b) (fun _ => "a9") (fun _ => "r9") 5 700
        c9wMeeting (ExtractionOutcome.ok [c9wItem])
        (fun _ => ActionOutcome.published (PublishOutcome.trelloFailed "rate limited"))).meeting.status
      = MeetingStatus.processed ∧
    (processMeeting (fun a b => a ++ "|" ++ b) (fun _ => "a9") (fun _ => "r9") 5 700
        c9wMeeting (ExtractionOutcome.ok [c9wItem])
        (fun _ => ActionOutcome.published (PublishOutcome.trelloFailed "rate limited"))).meeting.processedAt
      = some 700 ∧
    addToRetryQueue "r9" OperationType.trelloCreateCard
        ((fun a b => a ++ "|" ++ b) "a9" c9wMeeting.id) 5 700
      ∈ (processMeeting (fun a b => a ++ "|" ++ b) (fun _ => "a9") (fun _ => "r9") 5 700
          c9wMeeting (ExtractionOutcome.ok [c9wItem])
          (fun _ => ActionOutcome.published (PublishOutcome.trelloFailed "rate limited"))).retryEntries := by
  have h := c9_publish_failures_do_not_fail_item (fun a b => a ++ "|" ++ b)
    (fun _ => "a9") (fun _ => "r9") 5 700 c9wMeeting [c9wItem]
    (fun _ => ActionOutcome.published (PublishOutcome.trelloFailed "rate limited"))
  exact ⟨h.1.1, h.1.2.1, h.2.2 0 (by decide) "rate limited" rfl⟩

/-! ## Claim C10 — the manual retry reset -/

/-- C10, confirmed.  For every existing retry entry — whatever its current
    status, `SUCCEEDED` and `IN_PROGRESS` included — `trigger_retry` sets
    `status = PENDING`, `next_attempt_at = now` and
    `attempt_count = max(0, attempt_count - 1)`; consequently the attempt
    count is never negative afterwards, and the entry satisfies the due-entry
    query of every poll at any time `t ≥ now` (an already-succeeded entry
    becomes eligible for automatic re-dispatch). -/
theorem c10_manual_retry_reset (now : ℚ) (item : RetryQueue) :
    triggerRetry now item
      = { item with
          status := RetryStatus.pending
          nextRetryAt := now
          attemptCount := max 0 (item.attemptCount - 1) } ∧
    0 ≤ (triggerRetry now item).attemptCount ∧
    (∀ t : ℚ, now ≤ t → isDue t (triggerRetry now item) = true) := by
  refine ⟨rfl, le_max_left 0 _, ?_⟩
  intro t ht
  simp [isDue, triggerRetry, ht]

/-- Entry of the C10 witness: already `SUCCEEDED` with `attempt_count = 3`. -/
def c10wEntry : RetryQueue :=
  { id := "r10w", operationType := OperationType.trelloCreateCard, payload := "p",
    attemptCount := 3, maxAttempts := 5, nextRetryAt := 0,
    status := RetryStatus.succeeded, errorMessage := some "old error" }

/-- C10 witness: resetting the succeeded entry at `now = 50` makes it
    `PENDING` with `attempt_count = 2` and due for the very next poll. -/
theorem c10_manual_retry_reset_witness :
    triggerRetry 50 c10wEntry
      = { c10wEntry with
          status := RetryStatus.pending
          nextRetryAt := 50
          attemptCount := max 0 (c10wEntry.attemptCount - 1) } ∧
    isDue 50 (triggerRetry 50 c10wEntry) = true := by
  have h := c10_manual_retry_reset 50 c10wEntry
  exact ⟨h.1, h.2.2 50 le_rfl⟩

end GranolaBridge
